import Mathlib

/-!
Verification of the Trackman Iron Optimizer core (src/app.py).

The evaluable core of the repository is a handful of pure functions over
static tables: club specifications, per-club optimal ranges, a smash-factor
calculator, a range classifier, a recommendation generator, and a score
aggregator.  All numeric inputs are Python floats (or ints); we model them
as exact rationals `ℚ`, and Python's `round(x, 3)` (round-half-to-even)
as exact rational rounding.  Python dicts keyed by club name are modelled
as association lists with an explicit lookup returning `Option` (a missing
key raises `KeyError` in Python; here it is `none`).
-/

set_option autoImplicit false

namespace IronOptimizer

/-- The seven entries of the `metrics` dict built in `main`
(src/app.py lines 777-785): club speed, ball speed, computed smash factor,
launch angle, spin rate, carry distance, descent angle.  All are numbers;
modelled as `ℚ`. -/
structure Metrics where
  club_speed : ℚ
  ball_speed : ℚ
  smash_factor : ℚ
  launch_angle : ℚ
  spin_rate : ℚ
  carry_distance : ℚ
  descent_angle : ℚ
deriving DecidableEq, Repr

/-- One entry of `CLUB_SPECS` (src/app.py lines 37-46): loft, length,
and the typical swing-speed band `(low, high)`. -/
structure ClubSpec where
  loft : ℚ
  length : ℚ
  swing_speed_range : ℚ × ℚ
deriving DecidableEq, Repr

/-- One entry of `OPTIMAL_RANGES` (src/app.py lines 49-106): the `(low, high)`
optimal band for each of the five evaluated metrics. -/
structure ClubRanges where
  ball_speed : ℚ × ℚ
  launch_angle : ℚ × ℚ
  spin_rate : ℚ × ℚ
  smash_factor : ℚ × ℚ
  carry_distance : ℚ × ℚ
deriving DecidableEq, Repr

/-- Python dict access `tbl[key]` on a string-keyed table, modelled as
association-list lookup; a missing key (Python `KeyError`) is `none`. -/
def tableLookup {α : Type} : List (String × α) → String → Option α
  | [], _ => none
  | (k, v) :: rest, key => if key = k then some v else tableLookup rest key

/-- `CLUB_SPECS` (src/app.py lines 37-46): Titleist T-100 iron specifications. -/
def CLUB_SPECS : List (String × ClubSpec) :=
  [ ("3-iron", { loft := 21, length := 39.00, swing_speed_range := (90, 95) }),
    ("4-iron", { loft := 24, length := 38.50, swing_speed_range := (87, 92) }),
    ("5-iron", { loft := 27, length := 38.00, swing_speed_range := (84, 89) }),
    ("6-iron", { loft := 31, length := 37.50, swing_speed_range := (81, 86) }),
    ("7-iron", { loft := 35, length := 37.00, swing_speed_range := (78, 83) }),
    ("8-iron", { loft := 39, length := 36.50, swing_speed_range := (75, 80) }),
    ("9-iron", { loft := 43, length := 36.00, swing_speed_range := (72, 77) }),
    ("PW",     { loft := 47, length := 35.75, swing_speed_range := (70, 75) }) ]

/-- `OPTIMAL_RANGES` (src/app.py lines 49-106): optimal ranges per club. -/
def OPTIMAL_RANGES : List (String × ClubRanges) :=
  [ ("3-iron", { ball_speed := (125, 140), launch_angle := (12, 16),
                 spin_rate := (3000, 5000), smash_factor := (1.35, 1.42),
                 carry_distance := (180, 210) }),
    ("4-iron", { ball_speed := (120, 135), launch_angle := (14, 18),
                 spin_rate := (3500, 5500), smash_factor := (1.34, 1.41),
                 carry_distance := (170, 195) }),
    ("5-iron", { ball_speed := (115, 130), launch_angle := (16, 20),
                 spin_rate := (3800, 5800), smash_factor := (1.33, 1.40),
                 carry_distance := (160, 180) }),
    ("6-iron", { ball_speed := (110, 125), launch_angle := (18, 22),
                 spin_rate := (4000, 6200), smash_factor := (1.32, 1.39),
                 carry_distance := (150, 170) }),
    ("7-iron", { ball_speed := (105, 120), launch_angle := (20, 24),
                 spin_rate := (4500, 6800), smash_factor := (1.31, 1.38),
                 carry_distance := (140, 160) }),
    ("8-iron", { ball_speed := (100, 115), launch_angle := (22, 26),
                 spin_rate := (5000, 7500), smash_factor := (1.30, 1.37),
                 carry_distance := (125, 145) }),
    ("9-iron", { ball_speed := (95, 110), launch_angle := (25, 29),
                 spin_rate := (5500, 8000), smash_factor := (1.29, 1.36),
                 carry_distance := (110, 130) }),
    ("PW",     { ball_speed := (90, 105), launch_angle := (28, 33),
                 spin_rate := (6000, 8500), smash_factor := (1.28, 1.35),
                 carry_distance := (95, 115) }) ]

/-- The 8 valid club identifiers, in table order. -/
def clubNames : List String :=
  ["3-iron", "4-iron", "5-iron", "6-iron", "7-iron", "8-iron", "9-iron", "PW"]

/-- Python `round(q)` to the nearest integer, ties to the even integer
(banker's rounding), on exact rationals. -/
def pyRoundATE (q : ℚ) : ℤ :=
  let n := ⌊q⌋
  let frac := q - n
  if frac < 1 / 2 then n
  else if 1 / 2 < frac then n + 1
  else if n % 2 = 0 then n else n + 1

/-- Python `round(q, 3)`: round to 3 decimal places, ties to even. -/
def pyRound3 (q : ℚ) : ℚ := (pyRoundATE (q * 1000) : ℚ) / 1000

/-- `calculate_smash_factor` (src/app.py lines 294-298): smash factor from
ball and club speed; `0.0` when `club_speed <= 0`, otherwise the quotient
rounded to 3 decimal places. -/
def calculate_smash_factor (ball_speed club_speed : ℚ) : ℚ :=
  if club_speed ≤ 0 then 0
  else pyRound3 (ball_speed / club_speed)

/-- The dict returned by `check_metric_status` (src/app.py lines 300-324).
Its `message` field is the Python f-string `"{metric_name}: {value} <note>"`;
float-to-string formatting is display-only, so the message is modelled by
its components (`msgName`, `msgValue`, `msgNote`).  `class` is a Lean
keyword, hence `cssClass`. -/
structure MetricCheck where
  status : String
  msgName : String
  msgValue : ℚ
  msgNote : String
  icon : String
  cssClass : String
deriving DecidableEq, Repr

/-- `check_metric_status` (src/app.py lines 300-324): classify a value
against an optimal range. -/
def check_metric_status (value : ℚ) (optimal_range : ℚ × ℚ)
    (metric_name : String) : MetricCheck :=
  let low := optimal_range.1
  let high := optimal_range.2
  if low ≤ value ∧ value ≤ high then
    { status := "success", msgName := metric_name, msgValue := value,
      msgNote := "✓ (Optimal)", icon := "✅", cssClass := "metric-success" }
  else if value < low then
    { status := "warning_low", msgName := metric_name, msgValue := value,
      msgNote := "(Below Optimal)", icon := "⬇️", cssClass := "metric-weakness" }
  else
    { status := "warning_high", msgName := metric_name, msgValue := value,
      msgNote := "(Above Optimal)", icon := "⬆️", cssClass := "metric-weakness" }

/-- A recommendation record (src/app.py `generate_recommendations`):
area name, issue label, ordered fix list. -/
structure Recommendation where
  area : String
  issue : String
  fixes : List String
deriving DecidableEq, Repr

/-- The "Launch Angle" / "Too Low" record (src/app.py lines 337-346). -/
def recLaunchLow : Recommendation :=
  { area := "Launch Angle", issue := "Too Low",
    fixes :=
      [ "Increase angle of attack - swing more upward through impact",
        "Move ball position slightly forward in your stance",
        "Ensure proper weight transfer to front foot",
        "Check for early extension causing low point behind" ] }

/-- The "Launch Angle" / "Too High" record (src/app.py lines 348-357). -/
def recLaunchHigh : Recommendation :=
  { area := "Launch Angle", issue := "Too High",
    fixes :=
      [ "Decrease angle of attack - swing more downward",
        "Move ball position slightly back in your stance",
        "Reduce forward shaft lean at impact",
        "Check for casting or early release" ] }

/-- The "Spin Rate" / "Too Low" record (src/app.py lines 365-374). -/
def recSpinLow : Recommendation :=
  { area := "Spin Rate", issue := "Too Low",
    fixes :=
      [ "Swing more downward for increased compression",
        "Ensure crisp contact - avoid fat or thin shots",
        "Increase dynamic loft at impact",
        "Strike lower on the clubface for more spin" ] }

/-- The "Spin Rate" / "Too High" record (src/app.py lines 376-385). -/
def recSpinHigh : Recommendation :=
  { area := "Spin Rate", issue := "Too High",
    fixes :=
      [ "Swing slightly more upward through impact",
        "Reduce dynamic loft at impact",
        "Strike higher on the clubface",
        "Check for excessive hand action or flipping" ] }

/-- The "Smash Factor" record (src/app.py lines 389-399). -/
def recSmashLow : Recommendation :=
  { area := "Smash Factor", issue := "Too Low (Inefficient Energy Transfer)",
    fixes :=
      [ "Focus on center face contact",
        "Improve timing and swing sequence",
        "Align club face properly at impact",
        "Ensure proper ball position",
        "Work on lag and release timing" ] }

/-- The "Distance" / "Below Expected" record (src/app.py lines 408-417). -/
def recDistanceLow : Recommendation :=
  { area := "Distance", issue := "Below Expected",
    fixes :=
      [ "Review launch angle and spin rate optimization",
        "Check swing speed matches club capability",
        "Improve impact location (center face)",
        "Focus on compression and solid contact" ] }

/-- The "Distance" / "Above Expected" record (src/app.py lines 419-427). -/
def recDistanceHigh : Recommendation :=
  { area := "Distance", issue := "Above Expected",
    fixes :=
      [ "Great compression and efficiency!",
        "Verify measurements are accurate",
        "Good trajectory optimization" ] }

/-- The body of `generate_recommendations` (src/app.py lines 326-429) after
the `OPTIMAL_RANGES[club]` lookup has succeeded with `optimal`.  The Python
code sequentially appends at most one record per metric, in the fixed order
launch angle, spin rate, smash factor, carry distance; the guard
`'carry_distance' in metrics` is always true for the dict built in `main`
(the `Metrics` record always carries the field). -/
def recommendationsBody (optimal : ClubRanges) (metrics : Metrics) :
    List Recommendation :=
  let recommendations : List Recommendation := []
  let launch_check :=
    check_metric_status metrics.launch_angle optimal.launch_angle "Launch Angle"
  let recommendations :=
    if launch_check.status ≠ "success" then
      recommendations ++
        [if metrics.launch_angle < optimal.launch_angle.1 then recLaunchLow
         else recLaunchHigh]
    else recommendations
  let spin_check :=
    check_metric_status metrics.spin_rate optimal.spin_rate "Spin Rate"
  let recommendations :=
    if spin_check.status ≠ "success" then
      recommendations ++
        [if metrics.spin_rate < optimal.spin_rate.1 then recSpinLow
         else recSpinHigh]
    else recommendations
  let recommendations :=
    if metrics.smash_factor < optimal.smash_factor.1 then
      recommendations ++ [recSmashLow]
    else recommendations
  let recommendations :=
    if metrics.carry_distance > 0 then
      let dist_check :=
        check_metric_status metrics.carry_distance optimal.carry_distance
          "Carry Distance"
      if dist_check.status ≠ "success" then
        recommendations ++
          [if metrics.carry_distance < optimal.carry_distance.1 then
             recDistanceLow
           else recDistanceHigh]
      else recommendations
    else recommendations
  recommendations

/-- `generate_recommendations` (src/app.py lines 326-429): the function
starts with `optimal = OPTIMAL_RANGES[club]`, which raises `KeyError` for
an unknown club; modelled as `none`. -/
def generate_recommendations (club : String) (metrics : Metrics) :
    Option (List Recommendation) :=
  (tableLookup OPTIMAL_RANGES club).map (fun optimal => recommendationsBody optimal metrics)

/-- `display_club_info` (src/app.py lines 431-440) starts with
`specs = CLUB_SPECS[club]`; the lookup is what can fail, the rest is markup. -/
def display_club_info_lookup (club : String) : Option ClubSpec :=
  tableLookup CLUB_SPECS club

/-- The five checks computed in `main` (src/app.py lines 803-809), in order:
ball speed, launch angle, spin rate, smash factor, carry distance. -/
def shotChecks (optimal : ClubRanges) (metrics : Metrics) : List MetricCheck :=
  [ check_metric_status metrics.ball_speed optimal.ball_speed "",
    check_metric_status metrics.launch_angle optimal.launch_angle "",
    check_metric_status metrics.spin_rate optimal.spin_rate "",
    check_metric_status metrics.smash_factor optimal.smash_factor "",
    check_metric_status metrics.carry_distance optimal.carry_distance "" ]

/-- `success_count` (src/app.py lines 801, 811-813): how many of the five
checks have status `"success"`. -/
def success_count (optimal : ClubRanges) (metrics : Metrics) : ℕ :=
  (shotChecks optimal metrics).countP (fun check => check.status == "success")

/-- `optimization_score` (src/app.py line 815):
`(success_count / total_checks) * 100` with `total_checks = 5`. -/
def optimization_score (optimal : ClubRanges) (metrics : Metrics) : ℚ :=
  ((success_count optimal metrics : ℚ) / 5) * 100

/-- `score_message` (src/app.py lines 823-831): the qualitative tier label
attached to the score. -/
def score_message (score : ℚ) : String :=
  if score ≥ 80 then "Excellent!"
  else if score ≥ 60 then "Good"
  else "Needs Work"

/-- `low ≤ value ≤ high`: the condition under which the classifier reports
`"success"` (the spec's `within`). -/
def inRange (value : ℚ) (r : ℚ × ℚ) : Prop :=
  r.1 ≤ value ∧ value ≤ r.2

instance (value : ℚ) (r : ℚ × ℚ) : Decidable (inRange value r) := by
  unfold inRange; infer_instance

/-- The 7-iron entry of `OPTIMAL_RANGES`, named for use in concrete shots. -/
def ranges7 : ClubRanges :=
  { ball_speed := (105, 120), launch_angle := (20, 24),
    spin_rate := (4500, 6800), smash_factor := (1.31, 1.38),
    carry_distance := (140, 160) }

/-- The PW entry of `OPTIMAL_RANGES`, named for use in concrete shots. -/
def rangesPW : ClubRanges :=
  { ball_speed := (90, 105), launch_angle := (28, 33),
    spin_rate := (6000, 8500), smash_factor := (1.28, 1.35),
    carry_distance := (95, 115) }

/-- A concrete 7-iron shot: launch angle, spin rate, smash factor and carry
distance all inside their 7-iron optimal ranges, but ball speed 200 far
above its range (105, 120). -/
def shotBallFast : Metrics :=
  { club_speed := 83, ball_speed := 200, smash_factor := 1.35,
    launch_angle := 22, spin_rate := 5500, carry_distance := 150,
    descent_angle := 45 }

/-- A concrete 7-iron shot with all five evaluated metrics inside their
optimal ranges (the worked example of the spec: club speed 83, ball speed
112, smash factor 1.349, launch 22, spin 5500, carry 150). -/
def shotAllWithin : Metrics :=
  { club_speed := 83, ball_speed := 112, smash_factor := 1.349,
    launch_angle := 22, spin_rate := 5500, carry_distance := 150,
    descent_angle := 45 }

/-- `shotAllWithin` with different ball speed, club speed and descent angle
but identical launch angle, spin rate, smash factor and carry distance. -/
def shotAllWithinVaried : Metrics :=
  { club_speed := 1, ball_speed := 7, smash_factor := 1.349,
    launch_angle := 22, spin_rate := 5500, carry_distance := 150,
    descent_angle := 3 }

/-- A concrete PW shot with carry distance 0 (the spec's skip example). -/
def shotCarryZero : Metrics :=
  { club_speed := 72, ball_speed := 95, smash_factor := 1.319,
    launch_angle := 30, spin_rate := 7000, carry_distance := 0,
    descent_angle := 48 }

end IronOptimizer

namespace IronOptimizer

/-! ### Helper lemmas about the classifier -/

/-- The `status` field of `check_metric_status`, as a bare conditional. -/
theorem check_metric_status_status (value : ℚ) (r : ℚ × ℚ) (n : String) :
    (check_metric_status value r n).status =
      if r.1 ≤ value ∧ value ≤ r.2 then "success"
      else if value < r.1 then "warning_low" else "warning_high" := by
  simp only [check_metric_status]
  split_ifs <;> rfl

theorem check_status_success_iff (value : ℚ) (r : ℚ × ℚ) (n : String) :
    (check_metric_status value r n).status = "success" ↔
      r.1 ≤ value ∧ value ≤ r.2 := by
  rw [check_metric_status_status]
  split_ifs with h1 h2 <;> simp_all [String.reduceEq]

theorem check_status_low_iff (value : ℚ) (r : ℚ × ℚ) (n : String) :
    (check_metric_status value r n).status = "warning_low" ↔ value < r.1 := by
  rw [check_metric_status_status]
  split_ifs with h1 h2 <;> simp_all [String.reduceEq]

end IronOptimizer

namespace IronOptimizer

theorem check_status_high_iff (value : ℚ) (r : ℚ × ℚ) (n : String) :
    (check_metric_status value r n).status = "warning_high" ↔
      r.1 ≤ value ∧ r.2 < value := by
  rw [check_metric_status_status]
  split_ifs with h1 h2 <;> simp_all [String.reduceEq]

/-- The `status != 'success'` guard, after `check_metric_status_status`,
reduces to the negation of the range condition. -/
theorem status_ite_ne_success (P Q : Prop) [Decidable P] [Decidable Q] :
    ((if P then "success" else if Q then "warning_low" else "warning_high") ≠
      "success") ↔ ¬P := by
  split_ifs <;> simp_all [String.reduceEq]

/-- The recommendation list as a concatenation of four independent
segments, one per checked metric, each empty or a singleton. -/
theorem recommendationsBody_eq (optimal : ClubRanges) (m : Metrics) :
    recommendationsBody optimal m =
      (if inRange m.launch_angle optimal.launch_angle then []
       else if m.launch_angle < optimal.launch_angle.1 then [recLaunchLow]
       else [recLaunchHigh]) ++
      (if inRange m.spin_rate optimal.spin_rate then []
       else if m.spin_rate < optimal.spin_rate.1 then [recSpinLow]
       else [recSpinHigh]) ++
      (if m.smash_factor < optimal.smash_factor.1 then [recSmashLow] else []) ++
      (if m.carry_distance > 0 then
        (if inRange m.carry_distance optimal.carry_distance then []
         else if m.carry_distance < optimal.carry_distance.1 then [recDistanceLow]
         else [recDistanceHigh])
       else []) := by
  simp only [recommendationsBody, check_metric_status_status, ne_eq,
    status_ite_ne_success, ite_not, inRange]
  split_ifs <;> simp

end IronOptimizer

namespace IronOptimizer

/-- Boolean form of the success test used by `success_count`. -/
theorem status_ite_beq_success (P Q : Prop) [Decidable P] [Decidable Q] :
    (((if P then "success" else if Q then "warning_low" else "warning_high") ==
      "success") = true) ↔ P := by
  split_ifs <;> simp_all [beq_iff_eq, String.reduceEq]

/-- `success_count` as a sum of five indicator terms, one per metric. -/
theorem success_count_eq (optimal : ClubRanges) (m : Metrics) :
    success_count optimal m =
      (if inRange m.ball_speed optimal.ball_speed then 1 else 0) +
      (if inRange m.launch_angle optimal.launch_angle then 1 else 0) +
      (if inRange m.spin_rate optimal.spin_rate then 1 else 0) +
      (if inRange m.smash_factor optimal.smash_factor then 1 else 0) +
      (if inRange m.carry_distance optimal.carry_distance then 1 else 0) := by
  simp only [success_count, shotChecks, List.countP_cons, List.countP_nil,
    check_metric_status_status, status_ite_beq_success, inRange]
  split_ifs <;> omega

/-- The 7-iron lookup in the optimal-range table. -/
theorem lookup_ranges7 : tableLookup OPTIMAL_RANGES "7-iron" = some ranges7 := rfl

end IronOptimizer

namespace IronOptimizer

/-- C2: `calculate_smash_factor` returns `0` whenever `club_speed ≤ 0`, and
otherwise returns `ball_speed / club_speed` rounded to 3 decimal places;
in particular it returns `0` at `club_speed = 0` for every ball speed, and
`0` at `ball_speed = 0` for every positive club speed. -/
theorem claim2_smash_factor :
    (∀ ball_speed club_speed : ℚ, club_speed ≤ 0 →
      calculate_smash_factor ball_speed club_speed = 0) ∧
    (∀ ball_speed club_speed : ℚ, 0 < club_speed →
      calculate_smash_factor ball_speed club_speed =
        pyRound3 (ball_speed / club_speed)) ∧
    (∀ x : ℚ, calculate_smash_factor x 0 = 0) ∧
    (∀ y : ℚ, 0 < y → calculate_smash_factor 0 y = 0) := by
  refine ⟨?_, ?_, ?_, ?_⟩
  · intro b c h
    simp [calculate_smash_factor, h]
  · intro b c h
    rw [calculate_smash_factor, if_neg (not_le.mpr h)]
  · intro x
    simp [calculate_smash_factor]
  · intro y h
    rw [calculate_smash_factor, if_neg (not_le.mpr h), zero_div]
    norm_num [pyRound3, pyRoundATE]

/-- Witness for C2 at concrete inputs: club speed 0 and negative club speed
give 0, ball speed 0 with positive club speed gives 0, and a regular input
is the rounded quotient. -/
theorem claim2_witness :
    calculate_smash_factor 5 0 = 0 ∧
    calculate_smash_factor 112 83 = pyRound3 (112 / 83) ∧
    calculate_smash_factor 7 (-7) = 0 ∧
    calculate_smash_factor 0 2 = 0 := by
  refine ⟨claim2_smash_factor.1 5 0 (by norm_num),
    claim2_smash_factor.2.1 112 83 (by norm_num), ?_,
    claim2_smash_factor.2.2.2 2 (by norm_num)⟩
  exact claim2_smash_factor.1 7 (-7) (by norm_num)

/-- C3 counterexample: for the inverted range `(low, high) = (5, 3)` and
value `4`, the classifier returns `"warning_low"` (below) even though
`4 > high = 3`, so "above iff value > high" fails for a range with
`low > high`; the claim as stated over every `(low, high)` pair is false. -/
theorem claim3_counterexample :
    (check_metric_status 4 (5, 3) "Metric").status = "warning_low" ∧
    (3 : ℚ) < 4 ∧ "warning_low" ≠ "warning_high" := by
  refine ⟨?_, by norm_num, by decide⟩
  rw [check_status_low_iff]
  norm_num

/-- C3 (amended): for every value and every ordered range (`low ≤ high`,
which holds for all stored ranges), the classifier returns `within`
(`"success"`) iff `low ≤ value ≤ high`, `below` (`"warning_low"`) iff
`value < low`, `above` (`"warning_high"`) iff `value > high`, and the three
outcomes are an exhaustive partition with no error case. -/
theorem claim3_classifier (value low high : ℚ) (n : String) (h : low ≤ high) :
    ((check_metric_status value (low, high) n).status = "success" ↔
      low ≤ value ∧ value ≤ high) ∧
    ((check_metric_status value (low, high) n).status = "warning_low" ↔
      value < low) ∧
    ((check_metric_status value (low, high) n).status = "warning_high" ↔
      high < value) ∧
    ((check_metric_status value (low, high) n).status = "success" ∨
     (check_metric_status value (low, high) n).status = "warning_low" ∨
     (check_metric_status value (low, high) n).status = "warning_high") := by
  refine ⟨check_status_success_iff value (low, high) n,
    check_status_low_iff value (low, high) n, ?_, ?_⟩
  · rw [check_status_high_iff]
    constructor
    · exact fun hc => hc.2
    · exact fun hc => ⟨le_trans h (le_of_lt hc), hc⟩
  · rw [check_metric_status_status]
    split_ifs <;> simp

/-- Witness for C3 (amended) at value 22, range (20, 24). -/
theorem claim3_witness :
    ((check_metric_status 22 (20, 24) "Launch Angle").status = "success" ↔
      (20 : ℚ) ≤ 22 ∧ (22 : ℚ) ≤ 24) ∧
    ((check_metric_status 22 (20, 24) "Launch Angle").status = "warning_low" ↔
      (22 : ℚ) < 20) ∧
    ((check_metric_status 22 (20, 24) "Launch Angle").status = "warning_high" ↔
      (24 : ℚ) < 22) ∧
    ((check_metric_status 22 (20, 24) "Launch Angle").status = "success" ∨
     (check_metric_status 22 (20, 24) "Launch Angle").status = "warning_low" ∨
     (check_metric_status 22 (20, 24) "Launch Angle").status = "warning_high") :=
  claim3_classifier 22 20 24 "Launch Angle" (by norm_num)

/-- C9: every stored `(low, high)` pair is ordered: the five optimal ranges
of every `OPTIMAL_RANGES` entry and the swing-speed band of every
`CLUB_SPECS` entry satisfy `low ≤ high`. -/
theorem claim9_ranges_ordered :
    (∀ p ∈ OPTIMAL_RANGES,
      p.2.ball_speed.1 ≤ p.2.ball_speed.2 ∧
      p.2.launch_angle.1 ≤ p.2.launch_angle.2 ∧
      p.2.spin_rate.1 ≤ p.2.spin_rate.2 ∧
      p.2.smash_factor.1 ≤ p.2.smash_factor.2 ∧
      p.2.carry_distance.1 ≤ p.2.carry_distance.2) ∧
    (∀ p ∈ CLUB_SPECS,
      p.2.swing_speed_range.1 ≤ p.2.swing_speed_range.2) := by
  constructor
  · intro p hp
    simp only [OPTIMAL_RANGES, List.mem_cons, List.not_mem_nil, or_false] at hp
    rcases hp with rfl | rfl | rfl | rfl | rfl | rfl | rfl | rfl <;> norm_num
  · intro p hp
    simp only [CLUB_SPECS, List.mem_cons, List.not_mem_nil, or_false] at hp
    rcases hp with rfl | rfl | rfl | rfl | rfl | rfl | rfl | rfl <;> norm_num

/-- Witness for C9 at the PW entries of both tables. -/
theorem claim9_witness :
    (rangesPW.ball_speed.1 ≤ rangesPW.ball_speed.2 ∧
     rangesPW.launch_angle.1 ≤ rangesPW.launch_angle.2 ∧
     rangesPW.spin_rate.1 ≤ rangesPW.spin_rate.2 ∧
     rangesPW.smash_factor.1 ≤ rangesPW.smash_factor.2 ∧
     rangesPW.carry_distance.1 ≤ rangesPW.carry_distance.2) ∧
    (70 : ℚ) ≤ 75 := by
  constructor
  · exact claim9_ranges_ordered.1 ("PW", rangesPW) (by simp [OPTIMAL_RANGES, rangesPW])
  · exact claim9_ranges_ordered.2
      ("PW", { loft := 47, length := 35.75, swing_speed_range := (70, 75) })
      (by simp [CLUB_SPECS])

end IronOptimizer

namespace IronOptimizer

/-- C1 counterexample: for the 7-iron and a shot whose ball speed 200 is far
above the optimal range (105, 120) — so ball speed does NOT classify as
within — but whose launch angle, spin rate, smash factor and carry distance
are all in range, `generate_recommendations` still returns the empty list:
the generator never consults ball speed, so "empty iff all five metrics
classify as within" is false. -/
theorem claim1_counterexample :
    tableLookup OPTIMAL_RANGES "7-iron" = some ranges7 ∧
    generate_recommendations "7-iron" shotBallFast = some [] ∧
    (check_metric_status shotBallFast.ball_speed ranges7.ball_speed
      "Ball Speed").status ≠ "success" := by
  refine ⟨rfl, ?_, ?_⟩
  · simp only [generate_recommendations, lookup_ranges7, Option.map_some',
      Option.some.injEq]
    rw [recommendationsBody_eq]
    norm_num [inRange, shotBallFast, ranges7]
  · simp only [ne_eq, check_status_success_iff]
    norm_num [shotBallFast, ranges7]

/-- C1 (amended): for every club in the table, the recommendation list is
empty iff launch angle and spin rate classify as within, the smash factor is
at least its optimal lower bound, and the carry distance is either ≤ 0 (the
check is skipped) or within its range.  Ball speed is never consulted, and a
smash factor above its range never blocks emptiness. -/
theorem claim1_empty_iff (club : String) (ranges : ClubRanges) (m : Metrics)
    (h : tableLookup OPTIMAL_RANGES club = some ranges) :
    generate_recommendations club m = some [] ↔
      inRange m.launch_angle ranges.launch_angle ∧
      inRange m.spin_rate ranges.spin_rate ∧
      ranges.smash_factor.1 ≤ m.smash_factor ∧
      (m.carry_distance ≤ 0 ∨ inRange m.carry_distance ranges.carry_distance) := by
  simp only [generate_recommendations, h, Option.map_some', Option.some.injEq]
  rw [recommendationsBody_eq]
  split_ifs <;> simp_all [not_lt, not_le]

/-- Witness for C1 (amended) at the 7-iron and the all-within shot. -/
theorem claim1_witness :
    generate_recommendations "7-iron" shotAllWithin = some [] ↔
      inRange shotAllWithin.launch_angle ranges7.launch_angle ∧
      inRange shotAllWithin.spin_rate ranges7.spin_rate ∧
      ranges7.smash_factor.1 ≤ shotAllWithin.smash_factor ∧
      (shotAllWithin.carry_distance ≤ 0 ∨
        inRange shotAllWithin.carry_distance ranges7.carry_distance) :=
  claim1_empty_iff "7-iron" ranges7 shotAllWithin rfl

end IronOptimizer

namespace IronOptimizer

/-- C4 counterexample: at the 7-iron all-within shot the score is 100, which
is ≥ 80, yet the tier label produced by the code is `"Excellent!"` — not the
claimed `"Excellent"` — so the claim's top-tier label is false as stated. -/
theorem claim4_counterexample :
    tableLookup OPTIMAL_RANGES "7-iron" = some ranges7 ∧
    optimization_score ranges7 shotAllWithin = 100 ∧
    score_message (optimization_score ranges7 shotAllWithin) = "Excellent!" ∧
    score_message (optimization_score ranges7 shotAllWithin) ≠ "Excellent" := by
  have hscore : optimization_score ranges7 shotAllWithin = 100 := by
    rw [optimization_score, success_count_eq]
    norm_num [inRange, ranges7, shotAllWithin]
  refine ⟨rfl, hscore, ?_, ?_⟩ <;> rw [hscore, score_message]
  · norm_num
  · rw [if_pos (by norm_num : (100 : ℚ) ≥ 80)]
    decide

/-- C4 (amended): for every club in the table, the optimization score is the
count of within results among exactly the five metrics (ball speed, launch
angle, spin rate, smash factor, carry distance) divided by 5 and scaled to
0-100; the count is at most 5 so the score is an exact integer multiple of
20 in [0, 100]; and the tier label is `"Excellent!"` when score ≥ 80,
`"Good"` when 60 ≤ score < 80, and `"Needs Work"` when score < 60, the
lower bound of each band inclusive. -/
theorem claim4_score (club : String) (ranges : ClubRanges) (m : Metrics)
    (h : tableLookup OPTIMAL_RANGES club = some ranges) :
    optimization_score ranges m = (success_count ranges m : ℚ) / 5 * 100 ∧
    success_count ranges m =
      (if inRange m.ball_speed ranges.ball_speed then 1 else 0) +
      (if inRange m.launch_angle ranges.launch_angle then 1 else 0) +
      (if inRange m.spin_rate ranges.spin_rate then 1 else 0) +
      (if inRange m.smash_factor ranges.smash_factor then 1 else 0) +
      (if inRange m.carry_distance ranges.carry_distance then 1 else 0) ∧
    success_count ranges m ≤ 5 ∧
    optimization_score ranges m = 20 * (success_count ranges m : ℚ) ∧
    (80 ≤ optimization_score ranges m →
      score_message (optimization_score ranges m) = "Excellent!") ∧
    (60 ≤ optimization_score ranges m ∧ optimization_score ranges m < 80 →
      score_message (optimization_score ranges m) = "Good") ∧
    (optimization_score ranges m < 60 →
      score_message (optimization_score ranges m) = "Needs Work") := by
  refine ⟨rfl, success_count_eq ranges m, ?_, ?_, ?_, ?_, ?_⟩
  · rw [success_count_eq]
    split_ifs <;> omega
  · rw [optimization_score]
    ring
  · intro hs
    rw [score_message, if_pos hs]
  · intro hs
    rw [score_message, if_neg (not_le.mpr hs.2), if_pos hs.1]
  · intro hs
    rw [score_message, if_neg (not_le.mpr (lt_of_lt_of_le hs (by norm_num))),
      if_neg (not_le.mpr hs)]

/-- Witness for C4 (amended) at the 7-iron and the all-within shot. -/
theorem claim4_witness :
    optimization_score ranges7 shotAllWithin =
      (success_count ranges7 shotAllWithin : ℚ) / 5 * 100 ∧
    success_count ranges7 shotAllWithin =
      (if inRange shotAllWithin.ball_speed ranges7.ball_speed then 1 else 0) +
      (if inRange shotAllWithin.launch_angle ranges7.launch_angle then 1 else 0) +
      (if inRange shotAllWithin.spin_rate ranges7.spin_rate then 1 else 0) +
      (if inRange shotAllWithin.smash_factor ranges7.smash_factor then 1 else 0) +
      (if inRange shotAllWithin.carry_distance ranges7.carry_distance then 1 else 0) ∧
    success_count ranges7 shotAllWithin ≤ 5 ∧
    optimization_score ranges7 shotAllWithin =
      20 * (success_count ranges7 shotAllWithin : ℚ) ∧
    (80 ≤ optimization_score ranges7 shotAllWithin →
      score_message (optimization_score ranges7 shotAllWithin) = "Excellent!") ∧
    (60 ≤ optimization_score ranges7 shotAllWithin ∧
        optimization_score ranges7 shotAllWithin < 80 →
      score_message (optimization_score ranges7 shotAllWithin) = "Good") ∧
    (optimization_score ranges7 shotAllWithin < 60 →
      score_message (optimization_score ranges7 shotAllWithin) = "Needs Work") :=
  claim4_score "7-iron" ranges7 shotAllWithin rfl

end IronOptimizer

namespace IronOptimizer

/-- Only the smash-factor branch can contribute a record with area
`"Smash Factor"`, and it does so exactly when the measured smash factor is
strictly below the optimal lower bound. -/
theorem body_filter_smash (optimal : ClubRanges) (m : Metrics) :
    (recommendationsBody optimal m).filter (fun r => r.area == "Smash Factor") =
      if m.smash_factor < optimal.smash_factor.1 then [recSmashLow] else [] := by
  rw [recommendationsBody_eq]
  split_ifs <;>
    simp [List.filter_append, recLaunchLow, recLaunchHigh, recSpinLow,
      recSpinHigh, recSmashLow, recDistanceLow, recDistanceHigh,
      show ("Launch Angle" == "Smash Factor") = false from rfl,
      show ("Spin Rate" == "Smash Factor") = false from rfl,
      show ("Smash Factor" == "Smash Factor") = true from rfl,
      show ("Distance" == "Smash Factor") = false from rfl]

/-- Only the carry-distance branch can contribute a record with area
`"Distance"`; it runs only when the carry distance is positive, and then
emits the below/above record exactly when the value is out of range. -/
theorem body_filter_distance (optimal : ClubRanges) (m : Metrics) :
    (recommendationsBody optimal m).filter (fun r => r.area == "Distance") =
      if 0 < m.carry_distance then
        (if inRange m.carry_distance optimal.carry_distance then []
         else if m.carry_distance < optimal.carry_distance.1 then [recDistanceLow]
         else [recDistanceHigh])
      else [] := by
  rw [recommendationsBody_eq]
  split_ifs <;>
    simp [List.filter_append, recLaunchLow, recLaunchHigh, recSpinLow,
      recSpinHigh, recSmashLow, recDistanceLow, recDistanceHigh,
      show ("Launch Angle" == "Distance") = false from rfl,
      show ("Spin Rate" == "Distance") = false from rfl,
      show ("Smash Factor" == "Distance") = false from rfl,
      show ("Distance" == "Distance") = true from rfl]

/-- C5: for every club in the table, the smash-factor recommendation is
emitted iff the measured smash factor is strictly below the club's optimal
lower bound (so never when the value is ≥ the lower bound — there is no
"too high" branch), and the emitted record carries exactly 5 fix tips. -/
theorem claim5_smash_rule (club : String) (ranges : ClubRanges) (m : Metrics)
    (h : tableLookup OPTIMAL_RANGES club = some ranges) :
    generate_recommendations club m = some (recommendationsBody ranges m) ∧
    ((recommendationsBody ranges m).filter (fun r => r.area == "Smash Factor") =
      if m.smash_factor < ranges.smash_factor.1 then [recSmashLow] else []) ∧
    (ranges.smash_factor.1 ≤ m.smash_factor →
      (recommendationsBody ranges m).filter
        (fun r => r.area == "Smash Factor") = []) ∧
    recSmashLow.fixes.length = 5 := by
  refine ⟨by simp [generate_recommendations, h], body_filter_smash ranges m,
    ?_, rfl⟩
  intro hle
  rw [body_filter_smash, if_neg (not_lt.mpr hle)]

/-- Witness for C5 at the 7-iron and a shot with smash factor below range. -/
theorem claim5_witness :
    generate_recommendations "7-iron" shotAllWithin =
      some (recommendationsBody ranges7 shotAllWithin) ∧
    ((recommendationsBody ranges7 shotAllWithin).filter
        (fun r => r.area == "Smash Factor") =
      if shotAllWithin.smash_factor < ranges7.smash_factor.1 then [recSmashLow]
      else []) ∧
    (ranges7.smash_factor.1 ≤ shotAllWithin.smash_factor →
      (recommendationsBody ranges7 shotAllWithin).filter
        (fun r => r.area == "Smash Factor") = []) ∧
    recSmashLow.fixes.length = 5 :=
  claim5_smash_rule "7-iron" ranges7 shotAllWithin rfl

/-- C6: for every club in the table, the carry-distance check runs only when
the carry distance is positive — carry distance 0 yields no `"Distance"`
record regardless of the range — and a positive out-of-range carry yields
"Below Expected" with 4 tips when below the range, "Above Expected" with 3
tips when above it. -/
theorem claim6_carry_rule (club : String) (ranges : ClubRanges) (m : Metrics)
    (h : tableLookup OPTIMAL_RANGES club = some ranges) :
    generate_recommendations club m = some (recommendationsBody ranges m) ∧
    (m.carry_distance = 0 →
      (recommendationsBody ranges m).filter (fun r => r.area == "Distance") = []) ∧
    (0 < m.carry_distance → m.carry_distance < ranges.carry_distance.1 →
      (recommendationsBody ranges m).filter (fun r => r.area == "Distance") =
        [recDistanceLow]) ∧
    (0 < m.carry_distance → ranges.carry_distance.1 ≤ m.carry_distance →
        ranges.carry_distance.2 < m.carry_distance →
      (recommendationsBody ranges m).filter (fun r => r.area == "Distance") =
        [recDistanceHigh]) ∧
    (0 < m.carry_distance → inRange m.carry_distance ranges.carry_distance →
      (recommendationsBody ranges m).filter (fun r => r.area == "Distance") = []) ∧
    recDistanceLow.issue = "Below Expected" ∧ recDistanceLow.fixes.length = 4 ∧
    recDistanceHigh.issue = "Above Expected" ∧ recDistanceHigh.fixes.length = 3 := by
  refine ⟨by simp [generate_recommendations, h], ?_, ?_, ?_, ?_,
    rfl, rfl, rfl, rfl⟩
  · intro h0
    rw [body_filter_distance, if_neg (by rw [h0]; exact lt_irrefl 0)]
  · intro hpos hlow
    have hnin : ¬ inRange m.carry_distance ranges.carry_distance :=
      fun hin => absurd hlow (not_lt.mpr hin.1)
    rw [body_filter_distance, if_pos hpos, if_neg hnin, if_pos hlow]
  · intro hpos hge hhigh
    have hnin : ¬ inRange m.carry_distance ranges.carry_distance :=
      fun hin => absurd hhigh (not_lt.mpr hin.2)
    rw [body_filter_distance, if_pos hpos, if_neg hnin,
      if_neg (not_lt.mpr hge)]
  · intro hpos hin
    rw [body_filter_distance, if_pos hpos, if_pos hin]

/-- Witness for C6 at the PW and a zero-carry shot (the spec's example:
carry distance 0 with range (95, 115) yields no distance recommendation). -/
theorem claim6_witness :
    generate_recommendations "PW" shotCarryZero =
      some (recommendationsBody rangesPW shotCarryZero) ∧
    (shotCarryZero.carry_distance = 0 →
      (recommendationsBody rangesPW shotCarryZero).filter
        (fun r => r.area == "Distance") = []) ∧
    (0 < shotCarryZero.carry_distance →
        shotCarryZero.carry_distance < rangesPW.carry_distance.1 →
      (recommendationsBody rangesPW shotCarryZero).filter
        (fun r => r.area == "Distance") = [recDistanceLow]) ∧
    (0 < shotCarryZero.carry_distance →
        rangesPW.carry_distance.1 ≤ shotCarryZero.carry_distance →
        rangesPW.carry_distance.2 < shotCarryZero.carry_distance →
      (recommendationsBody rangesPW shotCarryZero).filter
        (fun r => r.area == "Distance") = [recDistanceHigh]) ∧
    (0 < shotCarryZero.carry_distance →
        inRange shotCarryZero.carry_distance rangesPW.carry_distance →
      (recommendationsBody rangesPW shotCarryZero).filter
        (fun r => r.area == "Distance") = []) ∧
    recDistanceLow.issue = "Below Expected" ∧ recDistanceLow.fixes.length = 4 ∧
    recDistanceHigh.issue = "Above Expected" ∧ recDistanceHigh.fixes.length = 3 :=
  claim6_carry_rule "PW" rangesPW shotCarryZero rfl

end IronOptimizer

namespace IronOptimizer

/-- Indicator terms are monotone under implication of their conditions. -/
theorem ite_indicator_mono (P Q : Prop) [Decidable P] [Decidable Q]
    (h : P → Q) : (if P then 1 else 0 : ℕ) ≤ if Q then 1 else 0 := by
  split_ifs with hp hq
  · exact le_rfl
  · exact absurd (h hp) hq
  · exact Nat.zero_le _
  · exact Nat.zero_le _

/-- C7: the optimization score is monotone in the set of in-range metrics:
if every one of the five metrics that is in range in the first shot is also
in range in the second, the second score is at least the first.  (Adding one
more in-range metric is the special case where the implications hold and one
antecedent is newly true.) -/
theorem claim7_score_monotone (club : String) (ranges : ClubRanges)
    (m1 m2 : Metrics)
    (h : tableLookup OPTIMAL_RANGES club = some ranges)
    (hball : inRange m1.ball_speed ranges.ball_speed →
      inRange m2.ball_speed ranges.ball_speed)
    (hlaunch : inRange m1.launch_angle ranges.launch_angle →
      inRange m2.launch_angle ranges.launch_angle)
    (hspin : inRange m1.spin_rate ranges.spin_rate →
      inRange m2.spin_rate ranges.spin_rate)
    (hsmash : inRange m1.smash_factor ranges.smash_factor →
      inRange m2.smash_factor ranges.smash_factor)
    (hcarry : inRange m1.carry_distance ranges.carry_distance →
      inRange m2.carry_distance ranges.carry_distance) :
    optimization_score ranges m1 ≤ optimization_score ranges m2 := by
  have hcount : success_count ranges m1 ≤ success_count ranges m2 := by
    rw [success_count_eq, success_count_eq]
    exact add_le_add (add_le_add (add_le_add (add_le_add
      (ite_indicator_mono _ _ hball) (ite_indicator_mono _ _ hlaunch))
      (ite_indicator_mono _ _ hspin)) (ite_indicator_mono _ _ hsmash))
      (ite_indicator_mono _ _ hcarry)
  have hq : (success_count ranges m1 : ℚ) ≤ success_count ranges m2 :=
    Nat.cast_le.mpr hcount
  rw [optimization_score, optimization_score]
  linarith

/-- Witness for C7: the 7-iron shot with ball speed out of range scores no
higher than the all-within shot that has one more metric in range. -/
theorem claim7_witness :
    optimization_score ranges7 shotBallFast ≤
      optimization_score ranges7 shotAllWithin :=
  claim7_score_monotone "7-iron" ranges7 shotBallFast shotAllWithin rfl
    (by norm_num [inRange, shotBallFast, shotAllWithin, ranges7])
    (by norm_num [inRange, shotBallFast, shotAllWithin, ranges7])
    (by norm_num [inRange, shotBallFast, shotAllWithin, ranges7])
    (by norm_num [inRange, shotBallFast, shotAllWithin, ranges7])
    (by norm_num [inRange, shotBallFast, shotAllWithin, ranges7])

/-- C8: looking up a club identifier outside the fixed 8 entries fails (the
lookup yields `none`, modelling Python's `KeyError`; no default club is
substituted), and `generate_recommendations` fails with it; each of the 8
valid identifiers succeeds in both tables and in the generator. -/
theorem claim8_unknown_club :
    (∀ club : String, club ∉ clubNames →
      tableLookup CLUB_SPECS club = none ∧
      tableLookup OPTIMAL_RANGES club = none ∧
      display_club_info_lookup club = none ∧
      ∀ m : Metrics, generate_recommendations club m = none) ∧
    (∀ club ∈ clubNames,
      (tableLookup CLUB_SPECS club).isSome ∧
      (tableLookup OPTIMAL_RANGES club).isSome ∧
      ∀ m : Metrics, (generate_recommendations club m).isSome) := by
  constructor
  · intro club hclub
    simp only [clubNames, List.mem_cons, List.not_mem_nil, or_false,
      not_or] at hclub
    obtain ⟨h3, h4, h5, h6, h7, h8, h9, hPW⟩ := hclub
    have hr : tableLookup OPTIMAL_RANGES club = none := by
      simp [tableLookup, OPTIMAL_RANGES, h3, h4, h5, h6, h7, h8, h9, hPW]
    have hs : tableLookup CLUB_SPECS club = none := by
      simp [tableLookup, CLUB_SPECS, h3, h4, h5, h6, h7, h8, h9, hPW]
    exact ⟨hs, hr, hs, fun m => by simp [generate_recommendations, hr]⟩
  · intro club hclub
    fin_cases hclub <;>
      exact ⟨rfl, rfl, fun m => rfl⟩

/-- Witness for C8: the unknown identifier "driver" fails everywhere, and
the valid identifier "PW" succeeds. -/
theorem claim8_witness :
    tableLookup CLUB_SPECS "driver" = none ∧
    tableLookup OPTIMAL_RANGES "driver" = none ∧
    display_club_info_lookup "driver" = none ∧
    generate_recommendations "driver" shotCarryZero = none ∧
    (tableLookup CLUB_SPECS "PW").isSome ∧
    (tableLookup OPTIMAL_RANGES "PW").isSome ∧
    (generate_recommendations "PW" shotCarryZero).isSome :=
  ⟨(claim8_unknown_club.1 "driver" (by decide)).1,
   (claim8_unknown_club.1 "driver" (by decide)).2.1,
   (claim8_unknown_club.1 "driver" (by decide)).2.2.1,
   (claim8_unknown_club.1 "driver" (by decide)).2.2.2 shotCarryZero,
   (claim8_unknown_club.2 "PW" (by decide)).1,
   (claim8_unknown_club.2 "PW" (by decide)).2.1,
   (claim8_unknown_club.2 "PW" (by decide)).2.2 shotCarryZero⟩

/-- C10: the output of `generate_recommendations` depends only on the
launch angle, spin rate, smash factor and carry distance entries of the
metrics dict: two metric sets agreeing on those four fields produce the
same recommendation list for every club, whatever their ball speed, club
speed and descent angle. -/
theorem claim10_noninterference (club : String) (m1 m2 : Metrics)
    (hlaunch : m1.launch_angle = m2.launch_angle)
    (hspin : m1.spin_rate = m2.spin_rate)
    (hsmash : m1.smash_factor = m2.smash_factor)
    (hcarry : m1.carry_distance = m2.carry_distance) :
    generate_recommendations club m1 = generate_recommendations club m2 := by
  simp only [generate_recommendations]
  congr 1
  funext optimal
  simp only [recommendationsBody, hlaunch, hspin, hsmash, hcarry]

/-- Witness for C10: two 7-iron shots differing in ball speed, club speed
and descent angle only yield identical recommendation lists. -/
theorem claim10_witness :
    generate_recommendations "7-iron" shotAllWithin =
      generate_recommendations "7-iron" shotAllWithinVaried :=
  claim10_noninterference "7-iron" shotAllWithin shotAllWithinVaried
    rfl rfl rfl rfl

end IronOptimizer
